import Mathlib

/-!
Shallow embedding of the storynest-backend service (src/app.js): an Express
HTTP service that validates a nickname/story submission, builds a response
record, and appends it as a row to a Google Sheet.

JavaScript runtime pieces are embedded as executable Lean functions:
  * `process.env` is a partial map `Env := String → Option String`
    (a variable is either unset, or set to a string, possibly empty);
  * JS values appearing in request bodies / payload cells are `JSVal`
    (`undefined`, `null`, or a string);
  * `Number.prototype.toString` on a non-negative integer is `natToString`;
  * `String.prototype.replace(/\\n/g, "\n")` is `jsReplaceBackslashN`;
  * `new Date(ms).toLocaleString("zh-TW", { timeZone: "Asia/Taipei" })`
    is `toLocaleStringZhTW` (Taipei is a fixed UTC+8 zone, no DST; the
    Gregorian calendar conversion uses the standard civil-from-days
    algorithm);
  * the remote Sheets API is a parameter `remote : AppendRequest → Except String Unit`
    (`Except.error msg` models a thrown error whose `.message` is `msg`).
-/

namespace StoryNest

/-- A JavaScript value as it can occur in a request body field or a payload
cell in this program: `undefined`, `null`, or a string. -/
inductive JSVal where
  | undef
  | null
  | str (s : String)
deriving DecidableEq

/-- JS truthiness of a `JSVal`: only a non-empty string is truthy
(`undefined` and `null` are falsy, as is `""`). -/
def truthy : JSVal → Bool
  | JSVal.str s => !(s == "")
  | _ => false

/-- `process.env`: each variable is unset (`none`) or set to a string. -/
def Env : Type := String → Option String

/-- JS `!!process.env[key]`: true exactly when the variable is set to a
non-empty string. -/
def envTruthy (env : Env) (k : String) : Bool :=
  match env k with
  | some s => !(s == "")
  | none => false

/-- JS `process.env[key] || d`: the variable's value when truthy
(set and non-empty), otherwise the default `d`. -/
def jsOrDefault (v : Option String) (d : String) : String :=
  match v with
  | some s => if s == "" then d else s
  | none => d

/-- The decimal digit character for `d < 10` (embeds the digits produced by
JS number-to-string conversion). -/
def digitChar (d : Nat) : Char := Char.ofNat (48 + d)

/-- Fuel-indexed core of decimal rendering: prepends the decimal digits of
`n` to `acc`. The fuel `n + 1` in `natToString` always suffices. -/
def natDigitsCore : Nat → Nat → List Char → List Char
  | 0, _, acc => acc
  | fuel + 1, n, acc =>
    let d := digitChar (n % 10)
    if n < 10 then d :: acc else natDigitsCore fuel (n / 10) (d :: acc)

/-- JS `n.toString()` for a non-negative integer `n`: its decimal numeral. -/
def natToString (n : Nat) : String := String.mk (natDigitsCore (n + 1) n [])

/-- JS `s.replace(/\\n/g, "\n")` on the character list: every occurrence of
the two-character sequence backslash-`n`, scanned left to right without
overlap, becomes a newline character. -/
def replaceBackslashN : List Char → List Char
  | [] => []
  | '\\' :: 'n' :: rest => '\n' :: replaceBackslashN rest
  | c :: rest => c :: replaceBackslashN rest

/-- JS `s.replace(/\\n/g, "\n")` on strings. -/
def jsReplaceBackslashN (s : String) : String :=
  String.mk (replaceBackslashN s.data)

/-! ## Configuration constants (src/app.js lines 18-24) -/

/-- `const SHEET_ID = process.env.GOOGLE_SHEET_ID || "請填入你的SheetID";` -/
def SHEET_ID (env : Env) : String :=
  jsOrDefault (env "GOOGLE_SHEET_ID") "請填入你的SheetID"

/-- `const RESPONSE_SHEET_RANGE = process.env.GOOGLE_SHEET_RANGE || "'responses'!A:D";` -/
def RESPONSE_SHEET_RANGE (env : Env) : String :=
  jsOrDefault (env "GOOGLE_SHEET_RANGE") "\x27responses\x27!A:D"

/-- `const RESPONSE_COLUMNS = ["id", "created_at", "nickname", "story"];` -/
def RESPONSE_COLUMNS : List String := ["id", "created_at", "nickname", "story"]

/-! ## Credential resolver (src/app.js lines 29-50) -/

/-- The six environment variable names required by `buildCredentialsFromEnv`. -/
def requiredKeys : List String :=
  ["GOOGLE_SA_TYPE", "GOOGLE_SA_PROJECT_ID", "GOOGLE_SA_PRIVATE_KEY_ID",
   "GOOGLE_SA_PRIVATE_KEY", "GOOGLE_SA_CLIENT_EMAIL", "GOOGLE_SA_CLIENT_ID"]

/-- The credential descriptor object built by `buildCredentialsFromEnv`. -/
structure Credentials where
  type : String
  project_id : String
  private_key_id : String
  private_key : String
  client_email : String
  client_id : String
deriving DecidableEq

/-- `buildCredentialsFromEnv` (src/app.js lines 29-50): returns `none`
(JS `null`) unless every required key is truthy, otherwise the descriptor
read from the environment, with `\n`-unescaping applied to the private key.
A pure function of the supplied environment (no side effect). -/
def buildCredentialsFromEnv (env : Env) : Option Credentials :=
  let hasAll := requiredKeys.all (fun key => envTruthy env key)
  if !hasAll then none
  else some {
    type := (env "GOOGLE_SA_TYPE").getD "",
    project_id := (env "GOOGLE_SA_PROJECT_ID").getD "",
    private_key_id := (env "GOOGLE_SA_PRIVATE_KEY_ID").getD "",
    private_key := jsReplaceBackslashN ((env "GOOGLE_SA_PRIVATE_KEY").getD ""),
    client_email := (env "GOOGLE_SA_CLIENT_EMAIL").getD "",
    client_id := (env "GOOGLE_SA_CLIENT_ID").getD "" }

/-! ## Sheet client factory (src/app.js lines 52-72) -/

/-- Which credential source the `GoogleAuth` constructor receives: the
discrete-env credentials object, or a `keyFile` path. -/
inductive AuthSource where
  | credentials (c : Credentials)
  | keyFile (p : String)
deriving DecidableEq

/-- The observable configuration of the constructed Sheets client:
`google.sheets({ version: "v4", auth })` where `auth` carries the resolved
credential source and the fixed scope list. -/
structure SheetsClient where
  version : String
  source : AuthSource
  scopes : List String
deriving DecidableEq

/-- Construction of the Sheets client (the body of the `cached`-miss branch
of `getSheetsClient`). `dirname` stands for the runtime `__dirname`. -/
def mkSheetsClient (env : Env) (dirname : String) : SheetsClient :=
  let credentials := buildCredentialsFromEnv env
  let source :=
    match credentials with
    | some c => AuthSource.credentials c
    | none =>
      AuthSource.keyFile
        (jsOrDefault (env "GOOGLE_APPLICATION_CREDENTIALS")
          (dirname ++ "/service-account.json"))
  { version := "v4", source := source,
    scopes := ["https://www.googleapis.com/auth/spreadsheets"] }

/-- One call of `getSheetsClient` as a state transition on the closed-over
`cached` variable: returns the client handed back, the new cache state, and
whether this call constructed a client (`if (cached) return cached;` else
construct and store). -/
def getSheetsClientStep (env : Env) (dirname : String)
    (cached : Option SheetsClient) : SheetsClient × Option SheetsClient × Bool :=
  match cached with
  | some c => (c, some c, false)
  | none =>
    let c := mkSheetsClient env dirname
    (c, some c, true)

/-- The observable trace of a sequence of `getSheetsClient` calls: final
cache state, the clients returned in order, and how many constructions
happened. -/
structure ClientTrace where
  cache : Option SheetsClient
  results : List SheetsClient
  constructions : Nat
deriving DecidableEq

/-- Run `n` successive `getSheetsClient` calls from process start
(cache initially `undefined`). -/
def runGetSheetsClient (env : Env) (dirname : String) : Nat → ClientTrace
  | 0 => ⟨none, [], 0⟩
  | n + 1 =>
    let t := runGetSheetsClient env dirname n
    let r := getSheetsClientStep env dirname t.cache
    ⟨r.2.1, t.results ++ [r.1], t.constructions + (if r.2.2 then 1 else 0)⟩

/-! ## Row appender (src/app.js lines 77-95) -/

/-- A payload record as a JS object: an association list of key/value pairs
in insertion order (property lookup finds the first matching key;
a missing key reads as `undefined`). -/
def Payload : Type := List (String × JSVal)

/-- JS property lookup `payload[key]`. -/
def payloadGet (p : Payload) (k : String) : JSVal :=
  match List.find? (fun kv => kv.1 == k) p with
  | some kv => kv.2
  | none => JSVal.undef

/-- The cell written for one payload value:
`value === undefined || value === null ? "" : value`. -/
def cellValue : JSVal → String
  | JSVal.undef => ""
  | JSVal.null => ""
  | JSVal.str s => s

/-- `columns.map((key) => ...)` in `appendRow`: the ordered row of cells. -/
def rowOf (columns : List String) (payload : Payload) : List String :=
  columns.map (fun key => cellValue (payloadGet payload key))

/-- The argument object of `sheets.spreadsheets.values.append({...})`. -/
structure AppendRequest where
  spreadsheetId : String
  range : String
  valueInputOption : String
  insertDataOption : String
  values : List (List String)
deriving DecidableEq

/-- The single append request issued by one `appendRow(range, columns, payload)`
invocation. -/
def appendRowRequest (env : Env) (range : String) (columns : List String)
    (payload : Payload) : AppendRequest :=
  { spreadsheetId := SHEET_ID env, range := range,
    valueInputOption := "USER_ENTERED", insertDataOption := "INSERT_ROWS",
    values := [rowOf columns payload] }

/-- The list of remote append operations issued by one `appendRow`
invocation: exactly one. -/
def appendRowRequests (env : Env) (range : String) (columns : List String)
    (payload : Payload) : List AppendRequest :=
  [appendRowRequest env range columns payload]

/-! ## Date formatting (src/app.js line 120) -/

/-- Gregorian (year, month, day) from a count of days since the Unix epoch
(standard civil-from-days algorithm, specialised to non-negative days). -/
def civilFromDays (z : Nat) : Nat × Nat × Nat :=
  let zz := z + 719468
  let era := zz / 146097
  let doe := zz % 146097
  let yoe := (doe - doe / 1460 + doe / 36524 - doe / 146097) / 365
  let y := yoe + era * 400
  let doy := doe - (365 * yoe + yoe / 4 - yoe / 100)
  let mp := (5 * doy + 2) / 153
  let d := doy - (153 * mp + 2) / 5 + 1
  let mo := if mp < 10 then mp + 3 else mp - 9
  (if mo ≤ 2 then y + 1 else y, mo, d)

/-- Two-digit zero padding, as zh-TW locale output pads minutes/seconds. -/
def pad2 (n : Nat) : String :=
  if n < 10 then "0" ++ natToString n else natToString n

/-- The zh-TW locale string for given date/time components, e.g.
`2023/11/15 上午6:13:20`. -/
def formatZhTW (y mo d h mi s : Nat) : String :=
  let period := if h < 12 then "上午" else "下午"
  let h12 := if h % 12 == 0 then 12 else h % 12
  natToString y ++ "/" ++ natToString mo ++ "/" ++ natToString d ++ " " ++
    period ++ natToString h12 ++ ":" ++ pad2 mi ++ ":" ++ pad2 s

/-- `new Date(ms).toLocaleString("zh-TW", { timeZone: "Asia/Taipei" })`:
Taipei is fixed UTC+8 with no daylight saving. -/
def toLocaleStringZhTW (ms : Nat) : String :=
  let secs := ms / 1000
  let taipeiSecs := secs + 8 * 3600
  let days := taipeiSecs / 86400
  let sod := taipeiSecs % 86400
  let ymd := civilFromDays days
  formatZhTW ymd.1 ymd.2.1 ymd.2.2 (sod / 3600) ((sod % 3600) / 60) (sod % 60)

/-! ## HTTP handler for POST /api/responses (src/app.js lines 107-142) -/

/-- The destructured request body `{ nickname, story } = req.body`
(each field is `undefined` when absent). -/
structure ReqBody where
  nickname : JSVal
  story : JSVal
deriving DecidableEq

/-- The `newResponse` record built by the handler at millisecond timestamp
`nowMs` (object-literal key order preserved). -/
def newResponseRecord (nowMs : Nat) (nickname story : JSVal) : Payload :=
  [("id", JSVal.str (natToString nowMs)),
   ("created_at", JSVal.str (toLocaleStringZhTW nowMs)),
   ("nickname", nickname),
   ("story", story)]

/-- The observable outcome of one POST /api/responses request: HTTP status,
`message` body field, optional `data` body field, optional `error` body
field, and the `appendRow` invocations made (range, columns, payload). -/
structure HandlerOutcome where
  status : Nat
  message : String
  data : Option Payload
  error : Option String
  appendCalls : List (String × List String × Payload)

/-- The TypeError message thrown by `const { nickname, story } = req.body`
when `req.body` is `undefined`. -/
def destructureErrorMsg : String :=
  "Cannot destructure property \x27nickname\x27 of \x27req.body\x27 as it is undefined."

/-- The POST /api/responses handler (src/app.js lines 107-142).
`body` is `req.body` (`none` when no JSON body was parsed), `nowMs` the
millisecond clock at receipt, and `remote` the behaviour of the Sheets
append call (`Except.error msg` models a rejection whose message is `msg`).
When `req.body` is `undefined`/`null` the destructuring throws inside the
`try`, landing in the `catch` (HTTP 500); a falsy `nickname` or `story`
returns HTTP 400 before any `appendRow` call; otherwise `appendRow` is
invoked once with the constructed record and the remote outcome decides
between HTTP 201 and HTTP 500. -/
def handlePost (env : Env) (body : Option ReqBody) (nowMs : Nat)
    (remote : AppendRequest → Except String Unit) : HandlerOutcome :=
  match body with
  | none =>
    { status := 500, message := "伺服器錯誤，無法儲存回應",
      data := none, error := some destructureErrorMsg, appendCalls := [] }
  | some b =>
    if !(truthy b.nickname) || !(truthy b.story) then
      { status := 400, message := "請填寫暱稱與故事內容",
        data := none, error := none, appendCalls := [] }
    else
      let newResponse := newResponseRecord nowMs b.nickname b.story
      let call := (RESPONSE_SHEET_RANGE env, RESPONSE_COLUMNS, newResponse)
      match remote (appendRowRequest env (RESPONSE_SHEET_RANGE env)
          RESPONSE_COLUMNS newResponse) with
      | Except.ok _ =>
        { status := 201, message := "故事已成功送出",
          data := some newResponse, error := none, appendCalls := [call] }
      | Except.error msg =>
        { status := 500, message := "伺服器錯誤，無法儲存回應",
          data := none, error := some msg, appendCalls := [call] }

/-! ## Sanity checks of the embedding on concrete values -/

example : natToString 1700000000000 = "1700000000000" := by decide

example : jsReplaceBackslashN "a\\nb\\nc" = "a\nb\nc" := by decide

example : civilFromDays 19676 = (2023, 11, 15) := by decide

example : toLocaleStringZhTW 1700000000000 = "2023/11/15 上午6:13:20" := by decide

example :
    rowOf RESPONSE_COLUMNS
      [("story", JSVal.str "S"), ("id", JSVal.str "7"), ("x", JSVal.null)] =
      ["7", "", "", "S"] := by decide

/-! ## Concrete environments and values used by witnesses -/

/-- An environment with every variable unset. -/
def envNone : Env := fun _ => none

/-- A concrete environment with all six service-account variables set and a
private key containing a literal backslash-n sequence. -/
def envC9 : Env := fun k =>
  if k == "GOOGLE_SA_PRIVATE_KEY" then some "line1\\nline2"
  else if requiredKeys.contains k then some "service-value" else none

/-- The credential descriptor `buildCredentialsFromEnv` yields on `envC9`. -/
def credC9 : Credentials :=
  { type := "service-value", project_id := "service-value",
    private_key_id := "service-value", private_key := "line1\nline2",
    client_email := "service-value", client_id := "service-value" }

/-! ## Helper lemmas -/

theorem truthy_str_of_ne {s : String} (h : s ≠ "") :
    truthy (JSVal.str s) = true := by
  simp [truthy, h]

theorem natDigitsCore_length_le (fuel n : Nat) (acc : List Char) :
    acc.length ≤ (natDigitsCore fuel n acc).length := by
  induction fuel generalizing n acc with
  | zero => simp [natDigitsCore]
  | succ f ih =>
    simp only [natDigitsCore]
    split
    · simp
    · exact le_trans (by simp) (ih (n / 10) _)

theorem natToString_data_ne_nil (n : Nat) : (natToString n).data ≠ [] := by
  show natDigitsCore (n + 1) n [] ≠ []
  rw [show natDigitsCore (n + 1) n [] =
      if n < 10 then [digitChar (n % 10)]
      else natDigitsCore n (n / 10) [digitChar (n % 10)] from rfl]
  split
  · simp
  · have h := natDigitsCore_length_le n (n / 10) [digitChar (n % 10)]
    intro hc
    rw [hc] at h
    simp at h

theorem natToString_ne_empty (n : Nat) : natToString n ≠ "" := by
  intro hc
  exact natToString_data_ne_nil n (congrArg String.data hc)

theorem digitChar_isDigit (d : Nat) (h : d < 10) : (digitChar d).isDigit = true := by
  interval_cases d <;> decide

theorem natDigitsCore_all_digit (fuel : Nat) :
    ∀ (n : Nat) (acc : List Char), (∀ c ∈ acc, c.isDigit = true) →
    ∀ c ∈ natDigitsCore fuel n acc, c.isDigit = true := by
  induction fuel with
  | zero => intro n acc hacc; simpa [natDigitsCore] using hacc
  | succ f ih =>
    intro n acc hacc
    have hstep : ∀ c ∈ digitChar (n % 10) :: acc, c.isDigit = true := by
      intro c hc
      rcases List.mem_cons.mp hc with rfl | hc
      · exact digitChar_isDigit _ (Nat.mod_lt _ (by omega))
      · exact hacc c hc
    simp only [natDigitsCore]
    split
    · exact hstep
    · exact ih (n / 10) _ hstep

theorem natToString_all_digit (n : Nat) :
    (natToString n).data.all Char.isDigit = true := by
  rw [List.all_eq_true]
  intro c hc
  exact natDigitsCore_all_digit (n + 1) n [] (by simp) c hc

theorem formatZhTW_ne_empty (y mo d h mi s : Nat) :
    formatZhTW y mo d h mi s ≠ "" := by
  unfold formatZhTW
  intro hc
  have hd := congrArg String.data hc
  simp [String.data_append] at hd

theorem toLocaleStringZhTW_ne_empty (ms : Nat) : toLocaleStringZhTW ms ≠ "" := by
  unfold toLocaleStringZhTW
  exact formatZhTW_ne_empty _ _ _ _ _ _

/-- Shared helper: on a valid body, a failing remote append yields HTTP 500
carrying the error message. -/
theorem handlePost_remote_error (env : Env) (nick sto : String) (nowMs : Nat)
    (remote : AppendRequest → Except String Unit) (msg : String)
    (hn : nick ≠ "") (hs : sto ≠ "")
    (hr : remote (appendRowRequest env (RESPONSE_SHEET_RANGE env) RESPONSE_COLUMNS
        (newResponseRecord nowMs (JSVal.str nick) (JSVal.str sto))) =
      Except.error msg) :
    (handlePost env (some ⟨JSVal.str nick, JSVal.str sto⟩) nowMs remote).status = 500 ∧
    (handlePost env (some ⟨JSVal.str nick, JSVal.str sto⟩) nowMs remote).error = some msg := by
  simp [handlePost, truthy_str_of_ne hn, truthy_str_of_ne hs, hr]

/-! ## Claims -/

/-- C1: for every POST /api/responses request whose body has a falsy
`nickname` or a falsy `story`, the handler responds HTTP 400 and the Row
Appender is never invoked for that request. -/
theorem post_falsy_field_400_no_append (env : Env) (b : ReqBody) (nowMs : Nat)
    (remote : AppendRequest → Except String Unit)
    (h : truthy b.nickname = false ∨ truthy b.story = false) :
    (handlePost env (some b) nowMs remote).status = 400 ∧
    (handlePost env (some b) nowMs remote).appendCalls = [] := by
  have hcond : (!(truthy b.nickname) || !(truthy b.story)) = true := by
    rcases h with h | h <;> simp [h]
  simp [handlePost, hcond]

theorem post_falsy_field_400_no_append_witness :
    (truthy (JSVal.str "") = false ∨ truthy (JSVal.str "Hello") = false) ∧
    (handlePost envNone (some ⟨JSVal.str "", JSVal.str "Hello"⟩) 0
      (fun _ => Except.ok ())).status = 400 ∧
    (handlePost envNone (some ⟨JSVal.str "", JSVal.str "Hello"⟩) 0
      (fun _ => Except.ok ())).appendCalls = [] :=
  ⟨Or.inl (by decide),
   post_falsy_field_400_no_append envNone ⟨JSVal.str "", JSVal.str "Hello"⟩ 0
     (fun _ => Except.ok ()) (Or.inl (by decide))⟩

/-- C2: for every POST /api/responses request whose `nickname` and `story`
are truthy strings, if the remote append succeeds the handler responds HTTP
201 with a `data` record whose `nickname`/`story` equal the request values,
whose `id` is the millisecond timestamp at receipt rendered as a non-empty
numeric string, and whose `created_at` is a server-generated non-empty
string; the record passed to the Row Appender is this same record. -/
theorem post_valid_201_record (env : Env) (nick sto : String) (nowMs : Nat)
    (remote : AppendRequest → Except String Unit)
    (hn : nick ≠ "") (hs : sto ≠ "")
    (hr : remote (appendRowRequest env (RESPONSE_SHEET_RANGE env) RESPONSE_COLUMNS
        (newResponseRecord nowMs (JSVal.str nick) (JSVal.str sto))) =
      Except.ok ()) :
    (handlePost env (some ⟨JSVal.str nick, JSVal.str sto⟩) nowMs remote).status = 201 ∧
    (handlePost env (some ⟨JSVal.str nick, JSVal.str sto⟩) nowMs remote).data =
      some (newResponseRecord nowMs (JSVal.str nick) (JSVal.str sto)) ∧
    payloadGet (newResponseRecord nowMs (JSVal.str nick) (JSVal.str sto))
      "nickname" = JSVal.str nick ∧
    payloadGet (newResponseRecord nowMs (JSVal.str nick) (JSVal.str sto))
      "story" = JSVal.str sto ∧
    payloadGet (newResponseRecord nowMs (JSVal.str nick) (JSVal.str sto))
      "id" = JSVal.str (natToString nowMs) ∧
    payloadGet (newResponseRecord nowMs (JSVal.str nick) (JSVal.str sto))
      "created_at" = JSVal.str (toLocaleStringZhTW nowMs) ∧
    natToString nowMs ≠ "" ∧
    (natToString nowMs).data.all Char.isDigit = true ∧
    toLocaleStringZhTW nowMs ≠ "" ∧
    (handlePost env (some ⟨JSVal.str nick, JSVal.str sto⟩) nowMs remote).appendCalls =
      [(RESPONSE_SHEET_RANGE env, RESPONSE_COLUMNS,
        newResponseRecord nowMs (JSVal.str nick) (JSVal.str sto))] := by
  refine ⟨?_, ?_, ?_, ?_, ?_, ?_, natToString_ne_empty nowMs,
    natToString_all_digit nowMs, toLocaleStringZhTW_ne_empty nowMs, ?_⟩
  · simp [handlePost, truthy_str_of_ne hn, truthy_str_of_ne hs, hr]
  · simp [handlePost, truthy_str_of_ne hn, truthy_str_of_ne hs, hr]
  · simp [newResponseRecord, payloadGet, List.find?]
  · simp [newResponseRecord, payloadGet, List.find?]
  · simp [newResponseRecord, payloadGet, List.find?]
  · simp [newResponseRecord, payloadGet, List.find?]
  · simp [handlePost, truthy_str_of_ne hn, truthy_str_of_ne hs, hr]

theorem post_valid_201_record_witness :
    ("Amy" : String) ≠ "" ∧ ("Hello" : String) ≠ "" ∧
    ((fun _ => Except.ok ()) : AppendRequest → Except String Unit)
      (appendRowRequest envNone (RESPONSE_SHEET_RANGE envNone) RESPONSE_COLUMNS
        (newResponseRecord 1700000000000 (JSVal.str "Amy") (JSVal.str "Hello"))) =
      Except.ok () ∧
    (handlePost envNone (some ⟨JSVal.str "Amy", JSVal.str "Hello"⟩) 1700000000000
      (fun _ => Except.ok ())).status = 201 :=
  ⟨by decide, by decide, rfl,
   (post_valid_201_record envNone "Amy" "Hello" 1700000000000
     (fun _ => Except.ok ()) (by decide) (by decide) rfl).1⟩

/-- C3: the row of cell values sent to the remote API is ordered exactly
`[id, created_at, nickname, story]` regardless of the record's key order,
each cell being the record's value for that column, with `""` substituted
for a missing (`undefined`) or `null` value. -/
theorem appendRow_cell_order (env : Env) (range : String) (p q : Payload)
    (h : ∀ k ∈ RESPONSE_COLUMNS, payloadGet p k = payloadGet q k) :
    (appendRowRequest env range RESPONSE_COLUMNS p).values =
      [[cellValue (payloadGet p "id"), cellValue (payloadGet p "created_at"),
        cellValue (payloadGet p "nickname"), cellValue (payloadGet p "story")]] ∧
    rowOf RESPONSE_COLUMNS p = rowOf RESPONSE_COLUMNS q ∧
    cellValue JSVal.undef = "" ∧ cellValue JSVal.null = "" := by
  refine ⟨by simp [appendRowRequest, rowOf, RESPONSE_COLUMNS], ?_, rfl, rfl⟩
  simp only [rowOf, RESPONSE_COLUMNS, List.map_cons, List.map_nil]
  rw [h "id" (by simp [RESPONSE_COLUMNS]),
    h "created_at" (by simp [RESPONSE_COLUMNS]),
    h "nickname" (by simp [RESPONSE_COLUMNS]),
    h "story" (by simp [RESPONSE_COLUMNS])]

theorem appendRow_cell_order_witness :
    (∀ k ∈ RESPONSE_COLUMNS,
      payloadGet [("story", JSVal.str "S"), ("nickname", JSVal.str "N"),
        ("id", JSVal.str "1"), ("extra", JSVal.null)] k =
      payloadGet [("id", JSVal.str "1"), ("nickname", JSVal.str "N"),
        ("story", JSVal.str "S")] k) ∧
    (appendRowRequest envNone "r" RESPONSE_COLUMNS
      [("story", JSVal.str "S"), ("nickname", JSVal.str "N"),
       ("id", JSVal.str "1"), ("extra", JSVal.null)]).values =
      [[cellValue (payloadGet [("story", JSVal.str "S"), ("nickname", JSVal.str "N"),
          ("id", JSVal.str "1"), ("extra", JSVal.null)] "id"),
        cellValue (payloadGet [("story", JSVal.str "S"), ("nickname", JSVal.str "N"),
          ("id", JSVal.str "1"), ("extra", JSVal.null)] "created_at"),
        cellValue (payloadGet [("story", JSVal.str "S"), ("nickname", JSVal.str "N"),
          ("id", JSVal.str "1"), ("extra", JSVal.null)] "nickname"),
        cellValue (payloadGet [("story", JSVal.str "S"), ("nickname", JSVal.str "N"),
          ("id", JSVal.str "1"), ("extra", JSVal.null)] "story")]] :=
  ⟨by decide,
   (appendRow_cell_order envNone "r"
     [("story", JSVal.str "S"), ("nickname", JSVal.str "N"),
      ("id", JSVal.str "1"), ("extra", JSVal.null)]
     [("id", JSVal.str "1"), ("nickname", JSVal.str "N"), ("story", JSVal.str "S")]
     (by decide)).1⟩

/-- C4: whenever the remote append call throws, the handler responds HTTP
500 with a body whose `error` field equals the thrown error's message. -/
theorem post_remote_error_500 (env : Env) (nick sto : String) (nowMs : Nat)
    (remote : AppendRequest → Except String Unit) (msg : String)
    (hn : nick ≠ "") (hs : sto ≠ "")
    (hr : remote (appendRowRequest env (RESPONSE_SHEET_RANGE env) RESPONSE_COLUMNS
        (newResponseRecord nowMs (JSVal.str nick) (JSVal.str sto))) =
      Except.error msg) :
    (handlePost env (some ⟨JSVal.str nick, JSVal.str sto⟩) nowMs remote).status = 500 ∧
    (handlePost env (some ⟨JSVal.str nick, JSVal.str sto⟩) nowMs remote).error = some msg :=
  handlePost_remote_error env nick sto nowMs remote msg hn hs hr

theorem post_remote_error_500_witness :
    ("Amy" : String) ≠ "" ∧ ("Hi" : String) ≠ "" ∧
    ((fun _ => Except.error "quota exceeded") : AppendRequest → Except String Unit)
      (appendRowRequest envNone (RESPONSE_SHEET_RANGE envNone) RESPONSE_COLUMNS
        (newResponseRecord 42 (JSVal.str "Amy") (JSVal.str "Hi"))) =
      Except.error "quota exceeded" ∧
    (handlePost envNone (some ⟨JSVal.str "Amy", JSVal.str "Hi"⟩) 42
      (fun _ => Except.error "quota exceeded")).status = 500 ∧
    (handlePost envNone (some ⟨JSVal.str "Amy", JSVal.str "Hi"⟩) 42
      (fun _ => Except.error "quota exceeded")).error = some "quota exceeded" :=
  ⟨by decide, by decide, rfl,
   (post_remote_error_500 envNone "Amy" "Hi" 42
     (fun _ => Except.error "quota exceeded") "quota exceeded"
     (by decide) (by decide) rfl).1,
   (post_remote_error_500 envNone "Amy" "Hi" 42
     (fun _ => Except.error "quota exceeded") "quota exceeded"
     (by decide) (by decide) rfl).2⟩

/-- C5: the credential resolver returns a populated descriptor if and only
if all six named environment values are present and non-empty; otherwise it
returns the absence signal (`none`). It is a pure function of the supplied
environment, so it performs no side effect. -/
theorem buildCredentials_iff_all_present (env : Env) :
    ((buildCredentialsFromEnv env).isSome = true ↔
      (envTruthy env "GOOGLE_SA_TYPE" = true ∧
       envTruthy env "GOOGLE_SA_PROJECT_ID" = true ∧
       envTruthy env "GOOGLE_SA_PRIVATE_KEY_ID" = true ∧
       envTruthy env "GOOGLE_SA_PRIVATE_KEY" = true ∧
       envTruthy env "GOOGLE_SA_CLIENT_EMAIL" = true ∧
       envTruthy env "GOOGLE_SA_CLIENT_ID" = true)) ∧
    (buildCredentialsFromEnv env = none ↔
      ¬(envTruthy env "GOOGLE_SA_TYPE" = true ∧
        envTruthy env "GOOGLE_SA_PROJECT_ID" = true ∧
        envTruthy env "GOOGLE_SA_PRIVATE_KEY_ID" = true ∧
        envTruthy env "GOOGLE_SA_PRIVATE_KEY" = true ∧
        envTruthy env "GOOGLE_SA_CLIENT_EMAIL" = true ∧
        envTruthy env "GOOGLE_SA_CLIENT_ID" = true)) := by
  have hall : (requiredKeys.all (fun key => envTruthy env key) = true) ↔
      (envTruthy env "GOOGLE_SA_TYPE" = true ∧
       envTruthy env "GOOGLE_SA_PROJECT_ID" = true ∧
       envTruthy env "GOOGLE_SA_PRIVATE_KEY_ID" = true ∧
       envTruthy env "GOOGLE_SA_PRIVATE_KEY" = true ∧
       envTruthy env "GOOGLE_SA_CLIENT_EMAIL" = true ∧
       envTruthy env "GOOGLE_SA_CLIENT_ID" = true) := by
    simp [requiredKeys, and_assoc]
  rw [← hall]
  cases hb : requiredKeys.all (fun key => envTruthy env key) with
  | false => simp [buildCredentialsFromEnv, hb]
  | true => simp [buildCredentialsFromEnv, hb]

/-- C6: the sheet client factory constructs the client at most once per
process lifetime: over any `n ≥ 1` successive calls exactly one
construction happens, every call returns the same instance, and the final
cache still holds that instance (never invalidated or refreshed). -/
theorem getSheetsClient_constructs_once (env : Env) (dirname : String)
    (n : Nat) (hn : 1 ≤ n) :
    (runGetSheetsClient env dirname n).constructions = 1 ∧
    (runGetSheetsClient env dirname n).cache = some (mkSheetsClient env dirname) ∧
    ∀ c ∈ (runGetSheetsClient env dirname n).results,
      c = mkSheetsClient env dirname := by
  induction n with
  | zero => omega
  | succ m ih =>
    rcases Nat.eq_zero_or_pos m with rfl | hm
    · simp [runGetSheetsClient, getSheetsClientStep]
    · obtain ⟨h1, h2, h3⟩ := ih hm
      refine ⟨?_, ?_, ?_⟩
      · simp [runGetSheetsClient, h2, getSheetsClientStep, h1]
      · simp [runGetSheetsClient, h2, getSheetsClientStep]
      · intro c hc
        simp only [runGetSheetsClient, h2, getSheetsClientStep] at hc
        rcases List.mem_append.mp hc with hc | hc
        · exact h3 c hc
        · simpa using hc

theorem getSheetsClient_constructs_once_witness :
    1 ≤ 3 ∧
    (runGetSheetsClient envNone "appdir" 3).constructions = 1 ∧
    (runGetSheetsClient envNone "appdir" 3).cache =
      some (mkSheetsClient envNone "appdir") ∧
    ∀ c ∈ (runGetSheetsClient envNone "appdir" 3).results,
      c = mkSheetsClient envNone "appdir" :=
  ⟨by decide, getSheetsClient_constructs_once envNone "appdir" 3 (by decide)⟩

/-- C7: every Row Appender invocation issues exactly one remote append
operation, with input-interpretation mode "USER_ENTERED" and insertion mode
"INSERT_ROWS", carrying exactly one row of values. -/
theorem appendRow_single_request (env : Env) (range : String)
    (columns : List String) (payload : Payload) :
    appendRowRequests env range columns payload =
      [appendRowRequest env range columns payload] ∧
    (appendRowRequests env range columns payload).length = 1 ∧
    (appendRowRequest env range columns payload).valueInputOption = "USER_ENTERED" ∧
    (appendRowRequest env range columns payload).insertDataOption = "INSERT_ROWS" ∧
    (appendRowRequest env range columns payload).values.length = 1 :=
  ⟨rfl, rfl, rfl, rfl, rfl⟩

/-- C8: when `req.body` is absent (`undefined`/`null`), the destructuring
throws inside the `try` block and the handler responds HTTP 500, not 400. -/
theorem post_no_body_500 (env : Env) (nowMs : Nat)
    (remote : AppendRequest → Except String Unit) :
    (handlePost env none nowMs remote).status = 500 ∧
    (handlePost env none nowMs remote).status ≠ 400 := by
  constructor <;> simp [handlePost]

/-- C9: when the credential resolver returns a descriptor, its
`private_key` is the raw environment value with every literal backslash-n
sequence replaced by a newline, and the other five fields pass through
unchanged. -/
theorem buildCredentials_private_key_unescaped (env : Env) (c : Credentials)
    (h : buildCredentialsFromEnv env = some c) :
    c.private_key = jsReplaceBackslashN ((env "GOOGLE_SA_PRIVATE_KEY").getD "") ∧
    c.type = (env "GOOGLE_SA_TYPE").getD "" ∧
    c.project_id = (env "GOOGLE_SA_PROJECT_ID").getD "" ∧
    c.private_key_id = (env "GOOGLE_SA_PRIVATE_KEY_ID").getD "" ∧
    c.client_email = (env "GOOGLE_SA_CLIENT_EMAIL").getD "" ∧
    c.client_id = (env "GOOGLE_SA_CLIENT_ID").getD "" := by
  simp only [buildCredentialsFromEnv] at h
  split at h
  · exact absurd h (by simp)
  · obtain rfl := (Option.some_injective _ h.symm)
    exact ⟨rfl, rfl, rfl, rfl, rfl, rfl⟩

theorem buildCredentials_private_key_unescaped_witness :
    buildCredentialsFromEnv envC9 = some credC9 ∧
    credC9.private_key =
      jsReplaceBackslashN ((envC9 "GOOGLE_SA_PRIVATE_KEY").getD "") ∧
    credC9.private_key = "line1\nline2" ∧
    (envC9 "GOOGLE_SA_PRIVATE_KEY").getD "" = "line1\\nline2" ∧
    credC9.private_key ≠ "line1\\nline2" :=
  ⟨by decide,
   (buildCredentials_private_key_unescaped envC9 credC9 (by decide)).1,
   by decide, by decide, by decide⟩

/-- C10: every append request's spreadsheet identifier is `SHEET_ID`:
the value of `GOOGLE_SHEET_ID` when set and non-empty, otherwise the fixed
placeholder string; so a missing `GOOGLE_SHEET_ID` never fails at startup
(the request is still formed) and surfaces only as a remote-call failure
(HTTP 500) at request time. -/
theorem sheetId_placeholder_fallback (env : Env) :
    (∀ range columns payload,
      (appendRowRequest env range columns payload).spreadsheetId = SHEET_ID env) ∧
    (envTruthy env "GOOGLE_SHEET_ID" = true →
      SHEET_ID env = (env "GOOGLE_SHEET_ID").getD "") ∧
    (envTruthy env "GOOGLE_SHEET_ID" = false →
      SHEET_ID env = "請填入你的SheetID") ∧
    (∀ nick sto nowMs msg (remote : AppendRequest → Except String Unit),
      nick ≠ "" → sto ≠ "" →
      remote (appendRowRequest env (RESPONSE_SHEET_RANGE env) RESPONSE_COLUMNS
        (newResponseRecord nowMs (JSVal.str nick) (JSVal.str sto))) =
        Except.error msg →
      (handlePost env (some ⟨JSVal.str nick, JSVal.str sto⟩) nowMs remote).status = 500) := by
  refine ⟨fun _ _ _ => rfl, ?_, ?_, ?_⟩
  · intro ht
    unfold SHEET_ID jsOrDefault
    unfold envTruthy at ht
    cases hv : env "GOOGLE_SHEET_ID" with
    | none => rw [hv] at ht; simp at ht
    | some s =>
      rw [hv] at ht
      simp only [Bool.not_eq_true] at ht
      simp [Option.getD]
      intro hc
      rw [hc] at ht
      simp at ht
  · intro ht
    unfold SHEET_ID jsOrDefault
    unfold envTruthy at ht
    cases hv : env "GOOGLE_SHEET_ID" with
    | none => rfl
    | some s =>
      rw [hv] at ht
      simp at ht
      simp [ht]
  · intro nick sto nowMs msg remote hn hs hr
    exact (handlePost_remote_error env nick sto nowMs remote msg hn hs hr).1

theorem sheetId_placeholder_fallback_witness :
    envTruthy envNone "GOOGLE_SHEET_ID" = false ∧
    SHEET_ID envNone = "請填入你的SheetID" ∧
    (appendRowRequest envNone (RESPONSE_SHEET_RANGE envNone) RESPONSE_COLUMNS
      []).spreadsheetId = SHEET_ID envNone ∧
    (handlePost envNone (some ⟨JSVal.str "Amy", JSVal.str "Hi"⟩) 42
      (fun _ => Except.error "Requested entity was not found.")).status = 500 :=
  ⟨by decide,
   (sheetId_placeholder_fallback envNone).2.2.1 (by decide),
   (sheetId_placeholder_fallback envNone).1 (RESPONSE_SHEET_RANGE envNone)
     RESPONSE_COLUMNS [],
   (sheetId_placeholder_fallback envNone).2.2.2 "Amy" "Hi" 42
     "Requested entity was not found." (fun _ => Except.error "Requested entity was not found.")
     (by decide) (by decide) rfl⟩

end StoryNest
